import Mathlib

/-!
Verification of the file-handling core of Parallel-File-Encryptor: the
scoped file-handle wrapper `IO` (IO.hpp / IO.cpp) and the env-file loader
`ReadEnv` (ReadEnv.cpp). The operating-system state visible to the code is
modelled as a small file system: each file has byte content (kept as text)
and per-process read/write permissions, since `std::fstream::open` with
`std::ios::in | std::ios::out` needs both to succeed and needs the file to
exist. Console output is collected as a list of emitted lines, and close
operations on the underlying OS resource are counted explicitly.
-/

/-- A file of the modelled file system: its on-disk byte content
(interpreted as text) and whether the process may read and write it. -/
structure FSFile where
  content : String
  readable : Bool
  writable : Bool
deriving Repr, DecidableEq

/-- The file system: an association list from paths to files. -/
abbrev FileSystem := List (String × FSFile)

/-- Path lookup in the modelled file system. -/
def FileSystem.lookup : FileSystem → String → Option FSFile
  | [], _ => none
  | (q, f) :: rest, p => if q = p then some f else FileSystem.lookup rest p

/-- The std::ios openmode bits that matter to this code: `in` (read),
`out` (write), `binary`, `trunc`. -/
structure OpenMode where
  canRead : Bool
  canWrite : Bool
  binary : Bool
  trunc : Bool
deriving Repr, DecidableEq

/-- The mode `std::ios::in | std::ios::out | std::ios::binary` that the
constructor IO::IO always passes to `file_stream.open` (IO.cpp line 8). -/
def ioOpenMode : OpenMode := ⟨true, true, true, false⟩

/-- A std::fstream: whether it is open, the path it is attached to, the
mode it was opened with, and its read position. A default-constructed or
moved-from stream is not open. -/
structure Fstream where
  isOpen : Bool
  path : String
  mode : OpenMode
  pos : Nat
deriving Repr, DecidableEq

/-- A stream that holds no OS resource: default-constructed, moved-from,
or after a failed open. -/
def Fstream.closed : Fstream := ⟨false, "", ⟨false, false, false, false⟩, 0⟩

/-- Semantics of `std::fstream::open` against the modelled file system: a
mode with `in` and without `trunc` requires the file to exist; requesting
read access requires read permission and requesting write access requires
write permission; on success the stream is attached at position 0, and the
file is truncated only under `trunc`. `none` means the OS rejected the
open call. -/
def openFile (fs : FileSystem) (p : String) (m : OpenMode) :
    Option (Fstream × FileSystem) :=
  match FileSystem.lookup fs p with
  | some f =>
      if (!m.canRead || f.readable) && (!m.canWrite || f.writable) then
        some (⟨true, p, m, 0⟩,
          if m.trunc then (p, { f with content := "" }) :: fs else fs)
      else none
  | none => none

/-- The wrapper object of IO.hpp: it holds the member std::fstream
`file_stream`. -/
structure IOHandle where
  file_stream : Fstream
deriving Repr, DecidableEq

/-- Embeds the constructor IO::IO(const std::string &file_path) of IO.cpp:
it opens `file_stream` with in|out|binary and, if the stream is not open
afterwards, prints the single line `"Unable to openthe file: " << file_path`.
Returns the constructed handle, the console lines emitted, and the file
system afterwards. -/
def IOHandle.construct (fs : FileSystem) (file_path : String) :
    IOHandle × List String × FileSystem :=
  match openFile fs file_path ioOpenMode with
  | some (st, fs2) => (⟨st⟩, [], fs2)
  | none => (⟨Fstream.closed⟩, ["Unable to openthe file: " ++ file_path], fs)

/-- Embeds IO::getFileStream(): `return std::move(file_stream)`. The member
stream is left in the moved-from state, which holds no OS resource. -/
def IOHandle.getFileStream (h : IOHandle) : Fstream × IOHandle :=
  (h.file_stream, ⟨Fstream.closed⟩)

/-- Destruction of a std::fstream owned by a caller: the stream closes its
underlying OS resource iff it is open. Returns how many close operations
were performed. -/
def Fstream.destruct (s : Fstream) : Nat :=
  if s.isOpen then 1 else 0

/-- Embeds the destructor IO::~IO() of IO.cpp: `if (file_stream.is_open())
file_stream.close();`. Returns how many close operations were performed on
the underlying OS resource. -/
def IOHandle.destruct (h : IOHandle) : Nat :=
  Fstream.destruct h.file_stream

/-- Embeds `buffer << f_stream.rdbuf()` followed by `buffer.str()` in
ReadEnv.cpp: everything from the stream's current position to the end of
the attached file is read; a stream that is not open, or was opened without
read access, contributes nothing. Returns the accumulated string and the
advanced stream. -/
def Fstream.readAll (s : Fstream) (fs : FileSystem) : String × Fstream :=
  if s.isOpen && s.mode.canRead then
    match FileSystem.lookup fs s.path with
    | some f =>
        (String.mk (List.drop s.pos f.content.data),
         { s with pos := List.length f.content.data })
    | none => ("", s)
  else ("", s)

/-- Embeds ReadEnv::getenv() of ReadEnv.cpp: construct an IO wrapper on the
fixed path ".env", move the stream out with getFileStream, slurp it into a
stringstream and return the accumulated string. Returns the string, the
console lines emitted, and the file system afterwards. -/
def ReadEnv.getenv (fs : FileSystem) : String × List String × FileSystem :=
  let env_path := ".env"
  let c := IOHandle.construct fs env_path
  let mv := IOHandle.getFileStream c.1
  let r := Fstream.readAll mv.1 c.2.2
  (r.1, c.2.1, c.2.2)

/-- The spec's generic load of a path P: construct an IO wrapper on P, move
the stream out, and perform one full read. -/
def readWholeFile (fs : FileSystem) (p : String) : String :=
  let c := IOHandle.construct fs p
  ((IOHandle.getFileStream c.1).1.readAll c.2.2).1

/-- Writing known content c to path p, as the spec's round-trip test does:
the written file exists afterwards with the process able to read and write
it. -/
def writeFile (fs : FileSystem) (p : String) (c : String) : FileSystem :=
  (p, ⟨c, true, true⟩) :: fs

/-- One complete lifetime of an IO wrapper on path p: construction; when
`retrieve` is set, the stream is moved out through getFileStream and the
caller's stream is destroyed at the end of the caller's scope; finally the
wrapper's destructor runs. Returns the total number of close operations
performed on the underlying OS resource over the whole lifetime. -/
def handleLifetimeCloses (fs : FileSystem) (p : String) (retrieve : Bool) : Nat :=
  let c := IOHandle.construct fs p
  if retrieve then
    let mv := IOHandle.getFileStream c.1
    Fstream.destruct mv.1 + IOHandle.destruct mv.2
  else
    IOHandle.destruct c.1

/-- Sample file system: ".env" contains "KEY=VALUE\n", normal permissions. -/
def fsKeyValue : FileSystem := [(".env", ⟨"KEY=VALUE\n", true, true⟩)]

/-- Sample file system: ".env" readable but not writable, content "X". -/
def fsReadOnlyEnv : FileSystem := [(".env", ⟨"X", true, false⟩)]

/-- Sample file system: "config.txt" readable but not writable. -/
def fsReadOnlyCfg : FileSystem := [("config.txt", ⟨"X", true, false⟩)]

/-- Sample file system: ".env" exists, zero bytes, normal permissions. -/
def fsEmptyEnv : FileSystem := [(".env", ⟨"", true, true⟩)]

/-- Sample file system: ".env" zero bytes, readable but not writable. -/
def fsEmptyReadOnly : FileSystem := [(".env", ⟨"", true, false⟩)]

/-! Helper lemmas shared by the claim theorems. -/

/-- Opening with in|out|binary succeeds on a file the process can read and
write, attaching the stream at position 0 and leaving the file system
unchanged. -/
theorem openFile_some_of_perm (fs : FileSystem) (p : String) (f : FSFile)
    (h : FileSystem.lookup fs p = some f) (hr : f.readable = true)
    (hw : f.writable = true) :
    openFile fs p ioOpenMode = some (⟨true, p, ioOpenMode, 0⟩, fs) := by
  simp [openFile, h, hr, hw, ioOpenMode]

/-- Opening with in|out|binary fails on a file the process cannot write. -/
theorem openFile_none_of_unwritable (fs : FileSystem) (p : String) (f : FSFile)
    (h : FileSystem.lookup fs p = some f) (hw : f.writable = false) :
    openFile fs p ioOpenMode = none := by
  simp [openFile, h, hw, ioOpenMode]

/-- Opening fails on a path that does not exist. -/
theorem openFile_none_of_missing (fs : FileSystem) (p : String) (m : OpenMode)
    (h : FileSystem.lookup fs p = none) : openFile fs p m = none := by
  simp [openFile, h]

/-- Inversion of a successful open: the stream is open at position 0 on the
requested path with the requested mode, and without trunc the file system
is unchanged. -/
theorem openFile_inv (fs : FileSystem) (p : String) (m : OpenMode)
    (st : Fstream) (fs2 : FileSystem)
    (h : openFile fs p m = some (st, fs2)) :
    st = ⟨true, p, m, 0⟩ ∧ (m.trunc = false → fs2 = fs) := by
  unfold openFile at h
  split at h
  · split at h
    · injection h with h1
      injection h1 with hst hfs
      refine ⟨hst.symm, ?_⟩
      intro hm
      rw [hm] at hfs
      simp at hfs
      exact hfs.symm
    · cases h
  · cases h

/-- Shape of the constructor when the open fails. -/
theorem construct_of_fail (fs : FileSystem) (p : String)
    (h : openFile fs p ioOpenMode = none) :
    IOHandle.construct fs p =
      (⟨Fstream.closed⟩, ["Unable to openthe file: " ++ p], fs) := by
  simp [IOHandle.construct, h]

/-- Shape of the constructor when the open succeeds. -/
theorem construct_of_open (fs : FileSystem) (p : String) (st : Fstream)
    (fs2 : FileSystem) (h : openFile fs p ioOpenMode = some (st, fs2)) :
    IOHandle.construct fs p = (⟨st⟩, [], fs2) := by
  simp [IOHandle.construct, h]

/-- The constructor never changes the file system: the mode it uses has no
trunc bit. -/
theorem construct_fs_eq (fs : FileSystem) (p : String) :
    (IOHandle.construct fs p).2.2 = fs := by
  cases hres : openFile fs p ioOpenMode with
  | none => rw [construct_of_fail fs p hres]
  | some pr =>
      obtain ⟨st, fs2⟩ := pr
      rw [construct_of_open fs p st fs2 hres]
      exact (openFile_inv fs p ioOpenMode st fs2 hres).2 rfl

/-- A stream holding no resource reads as empty. -/
theorem readAll_closed (fs : FileSystem) :
    Fstream.closed.readAll fs = ("", Fstream.closed) := rfl

/-- getenv when the open of ".env" fails: empty string, one diagnostic. -/
theorem getenv_of_fail (fs : FileSystem)
    (h : openFile fs ".env" ioOpenMode = none) :
    ReadEnv.getenv fs = ("", ["Unable to openthe file: .env"], fs) := by
  simp only [ReadEnv.getenv]
  rw [construct_of_fail fs ".env" h]
  rfl

/-- getenv when ".env" exists with read and write permission: the exact
content, no diagnostic, file system unchanged. -/
theorem getenv_of_open (fs : FileSystem) (f : FSFile)
    (h : FileSystem.lookup fs ".env" = some f)
    (hr : f.readable = true) (hw : f.writable = true) :
    ReadEnv.getenv fs = (f.content, [], fs) := by
  simp only [ReadEnv.getenv]
  rw [construct_of_open fs ".env" _ _ (openFile_some_of_perm fs ".env" f h hr hw)]
  simp only [IOHandle.getFileStream, Fstream.readAll, ioOpenMode]
  simp [h]

/-- getenv returns the file system it was given. -/
theorem getenv_fs_unchanged (fs : FileSystem) : (ReadEnv.getenv fs).2.2 = fs := by
  simp only [ReadEnv.getenv]
  exact construct_fs_eq fs ".env"

/-- The generic load of an existing path with read and write permission:
the moved-out stream starts at position 0 and the full read is the exact
content. -/
theorem readWholeFile_of_open (fs : FileSystem) (p : String) (f : FSFile)
    (h : FileSystem.lookup fs p = some f) (hr : f.readable = true)
    (hw : f.writable = true) :
    (IOHandle.getFileStream (IOHandle.construct fs p).1).1.pos = 0 ∧
    readWholeFile fs p = f.content := by
  have hc := construct_of_open fs p _ _ (openFile_some_of_perm fs p f h hr hw)
  constructor
  · rw [hc]
    rfl
  · simp only [readWholeFile]
    rw [hc]
    simp only [IOHandle.getFileStream, Fstream.readAll, ioOpenMode]
    simp [h]

/-- Characterization of the open state after construction: the member
stream is open exactly when the file exists and the process may both read
and write it. -/
theorem construct_isOpen_iff (fs : FileSystem) (p : String) :
    (IOHandle.construct fs p).1.file_stream.isOpen = true ↔
      ∃ f, FileSystem.lookup fs p = some f ∧ f.readable = true ∧
        f.writable = true := by
  constructor
  · intro h
    cases hl : FileSystem.lookup fs p with
    | none =>
        rw [construct_of_fail fs p
          (openFile_none_of_missing fs p ioOpenMode hl)] at h
        exact absurd h (by simp [Fstream.closed])
    | some f =>
        by_cases hr : f.readable = true
        · by_cases hw : f.writable = true
          · exact ⟨f, rfl, hr, hw⟩
          · have hw2 : f.writable = false := by simpa using hw
            rw [construct_of_fail fs p
              (openFile_none_of_unwritable fs p f hl hw2)] at h
            exact absurd h (by simp [Fstream.closed])
        · have hr2 : f.readable = false := by simpa using hr
          have hn : openFile fs p ioOpenMode = none := by
            simp [openFile, hl, hr2, ioOpenMode]
          rw [construct_of_fail fs p hn] at h
          exact absurd h (by simp [Fstream.closed])
  · rintro ⟨f, hl, hr, hw⟩
    rw [construct_of_open fs p _ _ (openFile_some_of_perm fs p f hl hr hw)]

/-- When construction leaves the stream open, its mode is in|out|binary. -/
theorem construct_mode (fs : FileSystem) (p : String)
    (h : (IOHandle.construct fs p).1.file_stream.isOpen = true) :
    (IOHandle.construct fs p).1.file_stream.mode = ioOpenMode := by
  cases hres : openFile fs p ioOpenMode with
  | none =>
      rw [construct_of_fail fs p hres] at h
      exact absurd h (by simp [Fstream.closed])
  | some pr =>
      obtain ⟨st, fs2⟩ := pr
      rw [construct_of_open fs p st fs2 hres,
        (openFile_inv fs p ioOpenMode st fs2 hres).1]

/-! Claim theorems. -/

/-- C1, counterexample: ".env" exists and is readable with byte content
"X", yet ReadEnv::getenv() returns "" rather than "X" — the constructor
also requests write access and this file is not writable, so the open
fails. -/
theorem getenv_readonly_counterexample :
    FileSystem.lookup fsReadOnlyEnv ".env" = some ⟨"X", true, false⟩ ∧
    (ReadEnv.getenv fsReadOnlyEnv).1 = "" ∧
    (ReadEnv.getenv fsReadOnlyEnv).1 ≠ "X" :=
  ⟨rfl, rfl, by decide⟩

/-- C1 (amended): for every existing ".env" that the process can both read
and write, with byte content C, ReadEnv::getenv() returns exactly C as a
string, verbatim: no trimming, no key/value parsing, trailing newlines and
byte-order marks preserved. -/
theorem getenv_returns_content (fs : FileSystem) (f : FSFile)
    (h : FileSystem.lookup fs ".env" = some f)
    (hr : f.readable = true) (hw : f.writable = true) :
    (ReadEnv.getenv fs).1 = f.content := by
  rw [getenv_of_open fs f h hr hw]

/-- C1 witness: ".env" containing "KEY=VALUE\n" loads as "KEY=VALUE\n". -/
theorem getenv_returns_content_witness :
    (ReadEnv.getenv fsKeyValue).1 = "KEY=VALUE\n" :=
  getenv_returns_content fsKeyValue ⟨"KEY=VALUE\n", true, true⟩ rfl rfl rfl

/-- C2, counterexample: "config.txt" exists and is readable with content
"X", yet constructing a handle on it and fully reading the moved-out
stream yields "" rather than the content — the open also requests write
access and this file is not writable. -/
theorem readWholeFile_readonly_counterexample :
    FileSystem.lookup fsReadOnlyCfg "config.txt" = some ⟨"X", true, false⟩ ∧
    readWholeFile fsReadOnlyCfg "config.txt" = "" ∧
    readWholeFile fsReadOnlyCfg "config.txt" ≠ "X" :=
  ⟨rfl, rfl, by decide⟩

/-- C2 (amended): for every path P that exists and that the process can
both read and write, the stream moved out of a freshly constructed handle
is positioned at the start and its full read equals the file's exact
content; and the round trip holds: writing known content C to P and then
loading P returns a string equal to C exactly. -/
theorem readWholeFile_correct :
    (∀ (fs : FileSystem) (p : String) (f : FSFile),
      FileSystem.lookup fs p = some f → f.readable = true →
      f.writable = true →
      (IOHandle.getFileStream (IOHandle.construct fs p).1).1.pos = 0 ∧
      readWholeFile fs p = f.content) ∧
    (∀ (fs : FileSystem) (p : String) (c : String),
      readWholeFile (writeFile fs p c) p = c) := by
  constructor
  · intro fs p f h hr hw
    exact readWholeFile_of_open fs p f h hr hw
  · intro fs p c
    have h : FileSystem.lookup (writeFile fs p c) p = some ⟨c, true, true⟩ := by
      simp [writeFile, FileSystem.lookup]
    exact (readWholeFile_of_open (writeFile fs p c) p ⟨c, true, true⟩ h rfl rfl).2

/-- C2 witness: writing "hello\n" to "tmp.txt" and loading it back returns
"hello\n". -/
theorem readWholeFile_correct_witness :
    readWholeFile (writeFile [] "tmp.txt" "hello\n") "tmp.txt" = "hello\n" :=
  readWholeFile_correct.2 [] "tmp.txt" "hello\n"

/-- C3: for every path that cannot be opened, the constructor raises
nothing (the embedding is a total function), leaves the handle in a
not-open state, and emits exactly one diagnostic line, which carries the
attempted path. -/
theorem construct_failure_diagnostic (fs : FileSystem) (p : String)
    (h : openFile fs p ioOpenMode = none) :
    (IOHandle.construct fs p).1.file_stream.isOpen = false ∧
    (IOHandle.construct fs p).2.1 = ["Unable to openthe file: " ++ p] := by
  rw [construct_of_fail fs p h]
  exact ⟨rfl, rfl⟩

/-- C3 witness: constructing on the missing path "missing.txt" over the
empty file system. -/
theorem construct_failure_diagnostic_witness :
    (IOHandle.construct [] "missing.txt").1.file_stream.isOpen = false ∧
    (IOHandle.construct [] "missing.txt").2.1 =
      ["Unable to openthe file: missing.txt"] := by
  have h := construct_failure_diagnostic [] "missing.txt" rfl
  exact ⟨h.1, by rw [h.2]; decide⟩

/-- C4: when ".env" cannot be opened (in particular when it is missing),
ReadEnv::getenv() returns "" and the one diagnostic line naming ".env" is
emitted; and an existing, readable and writable ".env" that is empty also
yields "", so the returned string does not distinguish the two outcomes. -/
theorem getenv_missing_empty :
    (∀ fs : FileSystem, openFile fs ".env" ioOpenMode = none →
      (ReadEnv.getenv fs).1 = "" ∧
      (ReadEnv.getenv fs).2.1 = ["Unable to openthe file: .env"]) ∧
    (∀ (fs : FileSystem) (f : FSFile),
      FileSystem.lookup fs ".env" = some f → f.readable = true →
      f.writable = true → f.content = "" → (ReadEnv.getenv fs).1 = "") := by
  constructor
  · intro fs h
    rw [getenv_of_fail fs h]
    exact ⟨rfl, rfl⟩
  · intro fs f h hr hw hc
    rw [getenv_of_open fs f h hr hw]
    exact hc

/-- C4 witness: the empty file system (".env" missing) yields "" with the
diagnostic, and an empty existing ".env" also yields "". -/
theorem getenv_missing_empty_witness :
    (ReadEnv.getenv []).1 = "" ∧
    (ReadEnv.getenv []).2.1 = ["Unable to openthe file: .env"] ∧
    (ReadEnv.getenv fsEmptyEnv).1 = "" :=
  ⟨(getenv_missing_empty.1 [] rfl).1, (getenv_missing_empty.1 [] rfl).2,
   getenv_missing_empty.2 fsEmptyEnv ⟨"", true, true⟩ rfl rfl rfl rfl⟩

/-- C5: over a full lifetime of the wrapper — whether or not the stream is
moved out, whether or not the open succeeded — the underlying OS resource
is closed exactly once when the open succeeded and never otherwise; and
the destructor of a handle whose stream was moved out performs no close at
all (safe no-op, no double-close). -/
theorem resource_released_once (fs : FileSystem) (p : String)
    (retrieve : Bool) :
    handleLifetimeCloses fs p retrieve =
      (if (openFile fs p ioOpenMode).isSome then 1 else 0) ∧
    IOHandle.destruct (IOHandle.getFileStream (IOHandle.construct fs p).1).2
      = 0 := by
  constructor
  · simp only [handleLifetimeCloses]
    cases hres : openFile fs p ioOpenMode with
    | none =>
        rw [construct_of_fail fs p hres]
        cases retrieve <;> rfl
    | some pr =>
        obtain ⟨st, fs2⟩ := pr
        rw [construct_of_open fs p st fs2 hres,
          (openFile_inv fs p ioOpenMode st fs2 hres).1]
        cases retrieve <;> rfl
  · rfl

/-- C5 witness: one close over the lifetime on an openable ".env" with the
stream moved out, none when the path is missing. -/
theorem resource_released_once_witness :
    handleLifetimeCloses fsKeyValue ".env" true = 1 ∧
    handleLifetimeCloses [] ".env" false = 0 :=
  ⟨(resource_released_once fsKeyValue ".env" true).1.trans rfl,
   (resource_released_once [] ".env" false).1.trans rfl⟩

/-- C6: the constructor always attempts a read+write binary open: the mode
it passes requests read, write and binary with no truncation; the open
succeeds exactly when the file exists with both read and write permission;
and on success the member stream carries that mode. -/
theorem construct_open_mode (fs : FileSystem) (p : String) :
    ((IOHandle.construct fs p).1.file_stream.isOpen = true ↔
      (∃ f, FileSystem.lookup fs p = some f ∧ f.readable = true ∧
        f.writable = true)) ∧
    ((IOHandle.construct fs p).1.file_stream.isOpen = true →
      (IOHandle.construct fs p).1.file_stream.mode = ioOpenMode) ∧
    ioOpenMode.canRead = true ∧ ioOpenMode.canWrite = true ∧
    ioOpenMode.binary = true ∧ ioOpenMode.trunc = false :=
  ⟨construct_isOpen_iff fs p, construct_mode fs p, rfl, rfl, rfl, rfl⟩

/-- C6 witness: on a normal ".env" the open succeeds and the stream's mode
is in|out|binary. -/
theorem construct_open_mode_witness :
    (IOHandle.construct fsKeyValue ".env").1.file_stream.mode = ioOpenMode :=
  (construct_open_mode fsKeyValue ".env").2.1 rfl

/-- C7, counterexample: ".env" exists with zero bytes but the process
cannot write it; getenv returns "" as the claim says, yet a diagnostic IS
emitted, against the claim's "no diagnostic". -/
theorem getenv_empty_readonly_counterexample :
    FileSystem.lookup fsEmptyReadOnly ".env" = some ⟨"", true, false⟩ ∧
    (ReadEnv.getenv fsEmptyReadOnly).1 = "" ∧
    (ReadEnv.getenv fsEmptyReadOnly).2.1 ≠ [] :=
  ⟨rfl, rfl, by decide⟩

/-- C7 (amended): if ".env" exists with zero bytes and the process can
both read and write it, ReadEnv::getenv() returns "" and no diagnostic is
emitted. -/
theorem getenv_empty_file (fs : FileSystem) (f : FSFile)
    (h : FileSystem.lookup fs ".env" = some f) (hc : f.content = "")
    (hr : f.readable = true) (hw : f.writable = true) :
    (ReadEnv.getenv fs).1 = "" ∧ (ReadEnv.getenv fs).2.1 = [] := by
  rw [getenv_of_open fs f h hr hw]
  exact ⟨hc, rfl⟩

/-- C7 witness: a zero-byte ".env" with normal permissions. -/
theorem getenv_empty_file_witness :
    (ReadEnv.getenv fsEmptyEnv).1 = "" ∧ (ReadEnv.getenv fsEmptyEnv).2.1 = [] :=
  getenv_empty_file fsEmptyEnv ⟨"", true, true⟩ rfl rfl rfl rfl

/-- C8: idempotence — running getenv and then running it again on the
resulting file system yields two equal strings. -/
theorem getenv_idempotent (fs : FileSystem) :
    (ReadEnv.getenv fs).1 = (ReadEnv.getenv (ReadEnv.getenv fs).2.2).1 := by
  rw [getenv_fs_unchanged fs]

/-- C8 witness: two successive loads of the same ".env" agree. -/
theorem getenv_idempotent_witness :
    (ReadEnv.getenv fsKeyValue).1 =
      (ReadEnv.getenv (ReadEnv.getenv fsKeyValue).2.2).1 :=
  getenv_idempotent fsKeyValue

/-- C9: getenv never modifies the file system — even though the mode it
opens with requests write access (and no truncation), the on-disk content
after the call equals the content before. -/
theorem getenv_preserves_fs (fs : FileSystem) :
    ioOpenMode.canWrite = true ∧ ioOpenMode.trunc = false ∧
    (ReadEnv.getenv fs).2.2 = fs :=
  ⟨rfl, rfl, getenv_fs_unchanged fs⟩

/-- C9 witness: the sample ".env" file system is unchanged by getenv. -/
theorem getenv_preserves_fs_witness :
    ioOpenMode.canWrite = true ∧ ioOpenMode.trunc = false ∧
    (ReadEnv.getenv fsKeyValue).2.2 = fsKeyValue :=
  getenv_preserves_fs fsKeyValue

/-- C10: a file that exists and is readable but not writable fails to
open: the handle is left not open and the diagnostic carrying the path is
emitted; and when that file is ".env", getenv returns "" (with the
diagnostic) instead of the file's content. -/
theorem readonly_open_fails :
    (∀ (fs : FileSystem) (p : String) (f : FSFile),
      FileSystem.lookup fs p = some f → f.readable = true →
      f.writable = false →
      (IOHandle.construct fs p).1.file_stream.isOpen = false ∧
      (IOHandle.construct fs p).2.1 = ["Unable to openthe file: " ++ p]) ∧
    (∀ (fs : FileSystem) (f : FSFile),
      FileSystem.lookup fs ".env" = some f → f.readable = true →
      f.writable = false →
      (ReadEnv.getenv fs).1 = "" ∧ (ReadEnv.getenv fs).2.1 ≠ []) := by
  constructor
  · intro fs p f h _ hw
    rw [construct_of_fail fs p (openFile_none_of_unwritable fs p f h hw)]
    exact ⟨rfl, rfl⟩
  · intro fs f h _ hw
    rw [getenv_of_fail fs (openFile_none_of_unwritable fs ".env" f h hw)]
    exact ⟨rfl, by simp⟩

/-- C10 witness: the read-only ".env" with content "X" leaves the handle
not open and getenv returns "". -/
theorem readonly_open_fails_witness :
    (IOHandle.construct fsReadOnlyEnv ".env").1.file_stream.isOpen = false ∧
    (ReadEnv.getenv fsReadOnlyEnv).1 = "" :=
  ⟨(readonly_open_fails.1 fsReadOnlyEnv ".env" ⟨"X", true, false⟩ rfl rfl rfl).1,
   (readonly_open_fails.2 fsReadOnlyEnv ⟨"X", true, false⟩ rfl rfl rfl).1⟩
